import Mathlib

/-!
Verification of the blue-green deployment orchestrator of CV-Algorithm-Hub.

The orchestrator consists of four shell scripts:
`blue-green-deploy.sh`, `blue-green-switch.sh`, `blue-green-rollback.sh`,
`blue-green-status.sh`. Each script reads the persisted active color from
the `CVHUB_DEPLOYMENT_COLOR` line of a `.env` file (defaulting to "blue"
when the line is absent), acts on the container stack set and the nginx
routing layer, and possibly rewrites the `.env` line with `sed`.

The embedding below models:
 - the persisted state as `Option String` (the `.env` line, `none` when
   the line is missing: `source .env 2>/dev/null || true` then
   `CURRENT_COLOR=${CVHUB_DEPLOYMENT_COLOR:-blue}`);
 - the routing layer as the color nginx currently routes to;
 - the stack set as the list of colors with a running stack;
 - each script run as a function returning an exit code, the new state,
   the trace of external actions it issued, and the levels of the log
   lines it printed.
-/

namespace BlueGreen

/-- System state touched by the blue-green scripts: the
`CVHUB_DEPLOYMENT_COLOR` line of `.env` (`none` when the line is missing),
the color the nginx routing layer currently forwards to, and the colors
whose container stack is running. -/
structure SysState where
  envColor : Option String
  routing : String
  running : List String
deriving DecidableEq

/-- External actions a script run issues, in order. -/
inductive Action where
  | pullImages : Action
  | buildStack : String → Action
  | upStack : String → Action
  | downStack : String → Action
  | sleepSec : Nat → Action
  | probe : Action
  | nginxReload : Action
  | writeEnv : String → String → Action
deriving DecidableEq, BEq

/-- Level of a `log_info` / `log_warn` / `log_error` line printed by a script. -/
inductive Level where
  | info : Level
  | warn : Level
  | error : Level
deriving DecidableEq, BEq

/-- Result of running one script: exit code, resulting system state, the
trace of external actions issued, and the levels of the leveled log lines
printed (bare `echo` lines carry no level and are not recorded). -/
structure RunResult where
  exitCode : Nat
  state : SysState
  trace : List Action
  logs : List Level
deriving DecidableEq

/-- Embeds `$([ "$CURRENT_COLOR" = "blue" ] && echo "green" || echo "blue")`:
the complement used by the deploy and rollback scripts. Note a value other
than "blue" is mapped to "blue". -/
def otherColor (c : String) : String :=
  if c = "blue" then "green" else "blue"

/-- Embeds `CURRENT_COLOR=${CVHUB_DEPLOYMENT_COLOR:-blue}`: the effective
active color, defaulting to "blue" when the `.env` line is missing. -/
def effColor (e : Option String) : String :=
  e.getD "blue"

/-- Embeds `sed -i "s/CVHUB_DEPLOYMENT_COLOR=$pat/CVHUB_DEPLOYMENT_COLOR=$repl/" .env`:
when the line is present with value `pat` it is rewritten to `repl`;
when the line is absent, or present with a different value, sed matches
nothing and the file is unchanged. -/
def sedEnv (pat repl : String) (e : Option String) : Option String :=
  e.map (fun c => if c = pat then repl else c)

/-- Starting the stack for a color (`docker-compose --profile prod up -d`):
the color's stack joins the running set. -/
def stackUp (c : String) (st : List String) : List String :=
  if c ∈ st then st else c :: st

/-- Tearing down the stack for a color (`docker-compose --profile prod down`):
the color's stack leaves the running set. Modelled from the spec: the
`docker-compose.yml` project is not in the sources; the Stack Controller
contract tags each build, start and stop with a color, so the teardown in
the deploy script's failure path acts on the target color it just started. -/
def stackDown (c : String) (st : List String) : List String :=
  st.filter (fun x => x ≠ c)

/-- Modelled from the spec: the nginx configuration is not in the sources.
Per the routing reload contract, `docker exec cvhub-nginx nginx -s reload`
makes the routing layer re-read its configuration and route to the color
the configuration names; the only color configuration the scripts maintain
is the persisted `.env` color, and the switch script's own log line says
it reloads "to switch traffic to $CURRENT_COLOR" where `CURRENT_COLOR` is
exactly the persisted color. So a reload sets routing to the effective
persisted color at the moment of the reload. -/
def reloadRouting (s : SysState) : SysState :=
  { s with routing := effColor s.envColor }

/-- The color the deploy script deploys to:
`NEW_COLOR=$([ "$CURRENT_COLOR" = "blue" ] && echo "green" || echo "blue")`,
always computed from the persisted state, never operator-supplied. -/
def deployTarget (s : SysState) : String :=
  otherColor (effColor s.envColor)

/-- Embeds `blue-green-rollback.sh`: reads the current color (default
blue), reloads nginx to "switch back", then rewrites the `.env` color line
from the current color to its complement. Note the reload happens BEFORE
the `.env` edit. Always exits 0 when the reload and the edit succeed.
Logs one warn line ("Rolling back from ... to ...") and one info line. -/
def rollbackRun (s : SysState) : RunResult :=
  let cur := effColor s.envColor
  let prev := otherColor cur
  let s1 := reloadRouting s
  { exitCode := 0
    state := { s1 with envColor := sedEnv cur prev s1.envColor }
    trace := [.nginxReload, .writeEnv cur prev]
    logs := [.warn, .info] }

/-- Embeds `blue-green-deploy.sh`: reads the current color (default blue),
computes the target as its complement, pulls, builds and starts the target
stack, sleeps 30 seconds, performs one `curl -f` health probe. On a
healthy probe it rewrites the `.env` color line to the target and exits 0;
on an unhealthy probe it prints the logs, tears the target stack down and
exits 1. The probe outcome is the `healthy` argument. -/
def deployRun (healthy : Bool) (s : SysState) : RunResult :=
  let cur := effColor s.envColor
  let tgt := deployTarget s
  let started := stackUp tgt s.running
  if healthy then
    { exitCode := 0
      state := { s with envColor := sedEnv cur tgt s.envColor, running := started }
      trace := [.pullImages, .buildStack tgt, .upStack tgt, .sleepSec 30, .probe,
                .writeEnv cur tgt]
      logs := [.info, .info, .info, .info, .info, .info, .info, .info, .info, .info,
               .info] }
  else
    { exitCode := 1
      state := { s with running := stackDown tgt started }
      trace := [.pullImages, .buildStack tgt, .upStack tgt, .sleepSec 30, .probe,
                .downStack tgt]
      logs := [.info, .info, .info, .info, .info, .info, .info, .warn, .error] }

/-- Embeds `blue-green-switch.sh`: reads the current color (default blue),
reloads nginx to route to it, sleeps 5 seconds, then verifies with one
`curl -f` probe through the routing path. On a successful verify it exits
0; on a failed verify it runs `./blue-green-rollback.sh` and, the rollback
succeeding, still falls off the end of the script and exits 0. The verify
outcome is the `verifyOk` argument. -/
def switchRun (verifyOk : Bool) (s : SysState) : RunResult :=
  let s1 := reloadRouting s
  if verifyOk then
    { exitCode := 0
      state := s1
      trace := [.nginxReload, .sleepSec 5, .probe]
      logs := [.info, .info, .info, .info, .info] }
  else
    let rb := rollbackRun s1
    { exitCode := rb.exitCode
      state := rb.state
      trace := [.nginxReload, .sleepSec 5, .probe] ++ rb.trace
      logs := [.info, .info, .info, .warn] ++ rb.logs }

/-- Embeds `blue-green-status.sh`: read-only; prints the current and
inactive colors with bare `echo` (no leveled log lines), probes the health
endpoint with `|| echo` fallback, and always exits 0. -/
def statusRun (s : SysState) : RunResult :=
  { exitCode := 0
    state := s
    trace := [.probe]
    logs := [] }

/-- The active color the status script reports ("Current Color"). -/
def statusActive (s : SysState) : String :=
  effColor s.envColor

/-- The inactive color the status script reports ("Inactive Color"). -/
def statusInactive (s : SysState) : String :=
  otherColor (statusActive s)

/-- States reachable by the orchestrator: an initial state has a
provisioned `.env` color line holding "blue" or "green", or no color line
at all, with routing at the default blue and no stack running; every
script run leads from a reachable state to a reachable state. -/
inductive Reachable : SysState → Prop where
  | init (e : Option String)
      (he : e = none ∨ e = some "blue" ∨ e = some "green") :
      Reachable { envColor := e, routing := "blue", running := [] }
  | deployStep (h : Bool) {s : SysState} :
      Reachable s → Reachable (deployRun h s).state
  | switchStep (v : Bool) {s : SysState} :
      Reachable s → Reachable (switchRun v s).state
  | rollbackStep {s : SysState} :
      Reachable s → Reachable (rollbackRun s).state

/-- The persisted color line is either absent or holds one of the two
colors. -/
def envOk (e : Option String) : Prop :=
  e = none ∨ e = some "blue" ∨ e = some "green"

lemma otherColor_cases (c : String) :
    otherColor c = "blue" ∨ otherColor c = "green" := by
  unfold otherColor
  by_cases h : c = "blue" <;> simp [h]

lemma envOk_preserved_deploy (h : Bool) (s : SysState) (he : envOk s.envColor) :
    envOk (deployRun h s).state.envColor := by
  cases h
  · simpa [deployRun] using he
  · rcases he with h0 | h0 | h0 <;>
      simp [deployRun, deployTarget, sedEnv, effColor, otherColor, envOk, h0]

lemma envOk_preserved_rollback (s : SysState) (he : envOk s.envColor) :
    envOk (rollbackRun s).state.envColor := by
  rcases he with h0 | h0 | h0 <;>
    simp [rollbackRun, reloadRouting, sedEnv, effColor, otherColor, envOk, h0]

lemma envOk_preserved_switch (v : Bool) (s : SysState) (he : envOk s.envColor) :
    envOk (switchRun v s).state.envColor := by
  cases v
  · have := envOk_preserved_rollback (reloadRouting s) (by simpa [reloadRouting] using he)
    simpa [switchRun] using this
  · simpa [switchRun, reloadRouting] using he

/-- Every reachable state has a persisted color line that is absent or
holds one of the two colors. -/
lemma reachable_envOk (s : SysState) (hs : Reachable s) : envOk s.envColor := by
  induction hs with
  | init e he => exact he
  | deployStep h _ ih => exact envOk_preserved_deploy h _ ih
  | switchStep v _ ih => exact envOk_preserved_switch v _ ih
  | rollbackStep _ ih => exact envOk_preserved_rollback _ ih

/-- C1: the claim states that a successful deploy leaves the persisted
active color at its pre-deploy value. Counterexample: with the state file
holding blue, a successful deploy rewrites it to green before returning
(the script's final `sed`), so the persisted color does not equal its
pre-deploy value. -/
theorem deploy_rewrites_color_cex :
    (deployRun true { envColor := some "blue", routing := "blue", running := [] }).state.envColor
      ≠ some "blue" := by
  decide

/-- C1 amended: a successful deploy itself persists the new color: after
it returns the persisted color line holds the complement of its pre-deploy
value whenever the line was present, and remains absent when the line was
missing (the `sed` then matches nothing). -/
theorem deploy_persists_target (s : SysState) :
    (deployRun true s).state.envColor = s.envColor.map otherColor := by
  cases h : s.envColor <;>
    simp [deployRun, deployTarget, sedEnv, effColor, h]

/-- C2: the claim states that rollback is idempotent on every reachable
state. Counterexample: the reachable state with the file holding blue.
One rollback persists green with routing at blue; a second rollback
persists blue with routing at green — both the persisted color and the
routing target differ between one and two invocations. -/
theorem rollback_twice_differs :
    Reachable { envColor := some "blue", routing := "blue", running := [] } ∧
    (rollbackRun (rollbackRun
        { envColor := some "blue", routing := "blue", running := [] }).state).state.envColor
      ≠ (rollbackRun
        { envColor := some "blue", routing := "blue", running := [] }).state.envColor ∧
    (rollbackRun (rollbackRun
        { envColor := some "blue", routing := "blue", running := [] }).state).state.routing
      ≠ (rollbackRun
        { envColor := some "blue", routing := "blue", running := [] }).state.routing :=
  ⟨Reachable.init (some "blue") (Or.inr (Or.inl rfl)), by decide, by decide⟩

/-- C2 amended: rollback is an involution on the persisted color rather
than idempotent: when the state file holds one of the two colors, each
invocation rewrites the persisted color to its complement and points
routing at the pre-invocation persisted color, so two successive rollbacks
restore the persisted color to its original value. -/
theorem rollback_involution (s : SysState) (c : String)
    (hc : s.envColor = some c) (hbg : c = "blue" ∨ c = "green") :
    (rollbackRun s).state.envColor = some (otherColor c) ∧
    (rollbackRun s).state.routing = c ∧
    (rollbackRun (rollbackRun s).state).state.envColor = s.envColor ∧
    (rollbackRun (rollbackRun s).state).state.routing = otherColor c := by
  rcases hbg with h | h <;> subst h <;>
    simp [rollbackRun, reloadRouting, sedEnv, effColor, otherColor, hc]

theorem rollback_involution_witness :
    (({ envColor := some "blue", routing := "blue", running := [] } : SysState).envColor
        = some "blue" ∧ ("blue" = "blue" ∨ "blue" = "green")) ∧
    ((rollbackRun { envColor := some "blue", routing := "blue", running := [] }).state.envColor
        = some (otherColor "blue") ∧
      (rollbackRun { envColor := some "blue", routing := "blue", running := [] }).state.routing
        = "blue" ∧
      (rollbackRun (rollbackRun
          { envColor := some "blue", routing := "blue", running := [] }).state).state.envColor
        = ({ envColor := some "blue", routing := "blue", running := [] } : SysState).envColor ∧
      (rollbackRun (rollbackRun
          { envColor := some "blue", routing := "blue", running := [] }).state).state.routing
        = otherColor "blue") :=
  ⟨⟨rfl, Or.inl rfl⟩,
    rollback_involution { envColor := some "blue", routing := "blue", running := [] }
      "blue" rfl (Or.inl rfl)⟩

/-- C3: when the single health probe reports unhealthy, deploy exits with
a non-zero code, the persisted active color is unchanged from its
pre-deploy value (the `sed` is never reached), and the newly started
target stack is torn down before the command returns: the teardown appears
in the trace and the target is not running in the final state. -/
theorem deploy_unhealthy_fail_safe (s : SysState) :
    (deployRun false s).exitCode ≠ 0 ∧
    (deployRun false s).state.envColor = s.envColor ∧
    deployTarget s ∉ (deployRun false s).state.running ∧
    Action.downStack (deployTarget s) ∈ (deployRun false s).trace := by
  refine ⟨by simp [deployRun], rfl, ?_, by simp [deployRun]⟩
  simp [deployRun, stackDown, List.mem_filter]

/-- C4: the claim states that `switch` exits non-zero whenever its
post-switch verification probe fails. Counterexample: in the post-deploy
state (file holding green), a switch whose verify probe fails runs the
rollback script and then falls off the end of the script, exiting 0. -/
theorem switch_verify_fail_exits_zero :
    (switchRun false
      { envColor := some "green", routing := "blue", running := ["blue", "green"] }).exitCode
      = 0 := by
  decide

/-- C4 amended: deploy exits 0 on success and non-zero (1) when its health
check fails; rollback and status always exit 0 (their other failure modes
are `set -e` aborts of external commands, modelled as succeeding); switch
exits 0 on a successful verify and ALSO exits 0 when the verify probe
fails but the automatic rollback succeeds. -/
theorem cli_exit_codes (s : SysState) (h v : Bool) :
    (deployRun h s).exitCode = (if h then 0 else 1) ∧
    (switchRun v s).exitCode = 0 ∧
    (rollbackRun s).exitCode = 0 ∧
    (statusRun s).exitCode = 0 := by
  cases h <;> cases v <;>
    simp [deployRun, switchRun, rollbackRun, statusRun]

/-- C5: in the post-deploy state (file holding green, routing still on
blue), a switch whose verify probe fails invokes rollback automatically;
rollback restores the persisted color to blue, but because its nginx
reload runs BEFORE its `.env` edit, the reload re-reads the still-green
configuration and routing remains on green — the routing target is NOT
restored to blue as the claim states. -/
theorem switch_verify_fail_rollback_state :
    (switchRun false
      { envColor := some "green", routing := "blue", running := ["blue", "green"] }).state
      = { envColor := some "blue", routing := "green", running := ["blue", "green"] } := by
  decide

/-- C6: from active=blue, a succeeding deploy, then a verified switch,
then a rollback: the persisted color is restored to blue (its pre-deploy
value), but routing remains on green because rollback reloads nginx before
editing the state file — routing does not match the restored color. -/
theorem roundtrip_routing_mismatch :
    (rollbackRun (switchRun true (deployRun true
        { envColor := some "blue", routing := "blue", running := [] }).state).state).state
      = { envColor := some "blue", routing := "green", running := ["green"] } := by
  decide

/-- C7: the claim states that on missing or corrupt state every operation
defaults to blue and logs a warning. Counterexample: status on a missing
state file prints no warning at all (it has no leveled log lines) even
though it reports blue; and a present-but-corrupt value ("purple") is
reported verbatim, not defaulted to blue. -/
theorem status_missing_state_no_warning :
    (statusRun { envColor := none, routing := "blue", running := [] }).logs.count Level.warn = 0 ∧
    statusActive { envColor := none, routing := "blue", running := [] } = "blue" ∧
    statusActive { envColor := some "purple", routing := "blue", running := [] } ≠ "blue" := by
  refine ⟨rfl, rfl, by decide⟩

/-- C7 amended: when the persisted color line is missing, every operation
silently defaults the active color to blue without any warning and without
failing: status reports active=blue with exit code 0 and no leveled log
lines, deploy targets green (the complement of the blue default) and
leaves the line absent, and rollback points routing at blue; a line that
is present with a corrupt value is used verbatim, not defaulted. -/
theorem missing_state_defaults_blue (r : String) (st : List String) (h : Bool) (v : String) :
    statusActive { envColor := none, routing := r, running := st } = "blue" ∧
    (statusRun { envColor := none, routing := r, running := st }).exitCode = 0 ∧
    (statusRun { envColor := none, routing := r, running := st }).logs = [] ∧
    deployTarget { envColor := none, routing := r, running := st } = "green" ∧
    (deployRun h { envColor := none, routing := r, running := st }).state.envColor = none ∧
    (rollbackRun { envColor := none, routing := r, running := st }).state.routing = "blue" ∧
    statusActive { envColor := some v, routing := r, running := st } = v := by
  cases h <;>
    simp [statusActive, statusRun, deployTarget, deployRun, rollbackRun,
      reloadRouting, sedEnv, effColor, otherColor]

/-- C8: in every reachable state the effective active color is exactly one
of blue and green, the reported inactive color is its complement (and so
differs from it), and the deploy target is computed as that complement —
never operator-supplied. -/
theorem reachable_two_slot_invariant (s : SysState) (hs : Reachable s) :
    (statusActive s = "blue" ∨ statusActive s = "green") ∧
    statusInactive s = otherColor (statusActive s) ∧
    statusInactive s ≠ statusActive s ∧
    deployTarget s = otherColor (statusActive s) := by
  have he := reachable_envOk s hs
  rcases he with h0 | h0 | h0 <;>
    simp [statusActive, statusInactive, deployTarget, effColor, otherColor, h0]

theorem reachable_two_slot_invariant_witness :
    Reachable { envColor := some "green", routing := "blue", running := [] } ∧
    ((statusActive { envColor := some "green", routing := "blue", running := [] } = "blue" ∨
        statusActive { envColor := some "green", routing := "blue", running := [] } = "green") ∧
      statusInactive { envColor := some "green", routing := "blue", running := [] }
        = otherColor (statusActive { envColor := some "green", routing := "blue", running := [] }) ∧
      statusInactive { envColor := some "green", routing := "blue", running := [] }
        ≠ statusActive { envColor := some "green", routing := "blue", running := [] } ∧
      deployTarget { envColor := some "green", routing := "blue", running := [] }
        = otherColor (statusActive { envColor := some "green", routing := "blue", running := [] })) :=
  ⟨Reachable.init (some "green") (Or.inr (Or.inr rfl)),
    reachable_two_slot_invariant { envColor := some "green", routing := "blue", running := [] }
      (Reachable.init (some "green") (Or.inr (Or.inr rfl)))⟩

/-- C9: the deploy script's health gating is a fixed 30-second settle
sleep followed by exactly one probe with no retry loop: the trace is
pull, build, up, sleep 30, probe, then either the state-file write (on a
healthy probe) or the teardown (on an unhealthy one); the trace contains
exactly one probe action, and the exit code is decided by that single
probe. -/
theorem deploy_single_probe (s : SysState) (h : Bool) :
    (deployRun h s).trace =
      [.pullImages, .buildStack (deployTarget s), .upStack (deployTarget s),
        .sleepSec 30, .probe] ++
      (if h then [.writeEnv (effColor s.envColor) (deployTarget s)]
        else [.downStack (deployTarget s)]) ∧
    ((deployRun h s).trace.countP (fun a => decide (a = Action.probe))) = 1 ∧
    (deployRun h s).exitCode = (if h then 0 else 1) := by
  cases h <;>
    refine ⟨rfl, ?_, rfl⟩ <;>
    simp [deployRun, List.countP_cons]

/-- C10: rollback never stops, starts or rebuilds any container stack:
its trace consists solely of the nginx reload and the state-file edit —
it contains no build, up or down action for any color — and the set of
running stacks is unchanged. -/
theorem rollback_no_stack_actions (s : SysState) :
    (rollbackRun s).state.running = s.running ∧
    (rollbackRun s).trace
      = [.nginxReload, .writeEnv (effColor s.envColor) (otherColor (effColor s.envColor))] ∧
    (∀ c, Action.buildStack c ∉ (rollbackRun s).trace ∧
      Action.upStack c ∉ (rollbackRun s).trace ∧
      Action.downStack c ∉ (rollbackRun s).trace) := by
  refine ⟨rfl, rfl, fun c => ?_⟩
  simp [rollbackRun, reloadRouting]

end BlueGreen
